import Mathlib

/-!
Shallow embedding of the captcha resolution and session resilience engine
(`src/captcha.py`, `src/elite_sniper_v2.py`) in Lean 4, together with
theorems settling the frozen claims about it.

Strings are modelled as Lean `String` (lists of characters); Python
`str.strip` is modelled over the six ASCII whitespace characters that
Python strips, `str.replace(" ", "")` as a filter removing spaces,
timestamps as integers.
-/

namespace AntSniper

/-- Whitespace characters removed by Python `str.strip` (ASCII subset). -/
def isPyWhitespace (c : Char) : Bool :=
  c == ' ' || c == '\t' || c == '\n' || c == '\r' || c == '\x0b' || c == '\x0c'

/-- Python `str.strip` on a character list: drop whitespace at both ends. -/
def stripList (l : List Char) : List Char :=
  ((l.dropWhile isPyWhitespace).reverse.dropWhile isPyWhitespace).reverse

/-- Python `str.strip` on strings. -/
def pyStrip (s : String) : String := ⟨stripList s.data⟩

/-- Python `str.replace(" ", "")`: remove every space character. -/
def removeSpaces (s : String) : String := ⟨s.data.filter (fun c => c != ' ')⟩

/-- Python `len(set(code)) == 1`: the list is non-empty and all its
characters are equal. -/
def allSame : List Char → Bool
  | [] => false
  | c :: cs => cs.all (fun d => d == c)

namespace EnhancedCaptchaSolver

/-- Embedding of `EnhancedCaptchaSolver.validate_captcha_result`
(src/captcha.py lines 607-665): empty-input check, strip and space
removal, black-pattern / all-identical rejection, then the length bands. -/
def validate_captcha_result (code : String) : Bool × String :=
  if code = "" then (false, "EMPTY")
  else
    let c := removeSpaces (pyStrip code)
    let inBlack : Bool :=
      c == "4333" || c == "333" || c == "444" || c == "1111" ||
      c == "0000" || c == "4444" || c == "3333"
    if inBlack || allSame c.data then (false, "BLACK_DETECTED")
    else if c.length < 4 then (false, "TOO_SHORT")
    else if c.length = 6 then (true, "VALID")
    else if c.length = 7 then (true, "AGING_7")
    else if c.length = 8 then (true, "AGING_8")
    else if c.length > 8 then (false, "TOO_LONG")
    else (false, "TOO_SHORT")

end EnhancedCaptchaSolver

/-- The three states of `CircuitBreaker.state` (src/captcha.py line 146). -/
inductive CBState
  | CLOSED
  | OPEN
  | HALFOPEN
deriving DecidableEq

/-- Embedding of the `CircuitBreaker` instance state (src/captcha.py
lines 136-146): threshold and timeout configuration plus the mutable
failure counter, last-failure timestamp and state.  Timestamps are
integers. -/
structure CircuitBreaker where
  threshold : Nat
  timeout : Int
  failures : Nat
  lastFailureTime : Int
  state : CBState
deriving DecidableEq

namespace CircuitBreaker

/-- `CircuitBreaker.__init__`: zero failures, last-failure time 0, CLOSED. -/
def mkNew (threshold : Nat) (timeout : Int) : CircuitBreaker :=
  ⟨threshold, timeout, 0, 0, .CLOSED⟩

/-- Embedding of `CircuitBreaker.record_failure` (src/captcha.py lines
148-156): increment the counter, stamp the failure time, and open the
circuit once the counter reaches the threshold. -/
def record_failure (cb : CircuitBreaker) (now : Int) : CircuitBreaker :=
  let cb1 := { cb with failures := cb.failures + 1, lastFailureTime := now }
  if cb1.failures ≥ cb1.threshold then { cb1 with state := .OPEN } else cb1

/-- Embedding of `CircuitBreaker.record_success` (src/captcha.py lines
158-163): reset the counter and close the circuit, but only when at least
one failure had been recorded. -/
def record_success (cb : CircuitBreaker) : CircuitBreaker :=
  if cb.failures > 0 then { cb with failures := 0, state := .CLOSED } else cb

/-- Embedding of `CircuitBreaker.is_open` (src/captcha.py lines 165-179):
returns the blocking decision together with the (possibly mutated) breaker.
A CLOSED breaker never blocks; once the timeout has elapsed since the last
failure an OPEN breaker flips to HALF-OPEN and lets the call pass, and a
HALF-OPEN breaker lets it pass as well. -/
def is_open (cb : CircuitBreaker) (now : Int) : Bool × CircuitBreaker :=
  if cb.state = .CLOSED then (false, cb)
  else if now - cb.lastFailureTime > cb.timeout then
    if cb.state = .OPEN then (false, { cb with state := .HALFOPEN })
    else (false, cb)
  else (true, cb)

/-- Apply `record_failure` at time `t`, `n` times in a row. -/
def failTimes (cb : CircuitBreaker) (t : Int) : Nat → CircuitBreaker
  | 0 => cb
  | n + 1 => (cb.failTimes t n).record_failure t

end CircuitBreaker

/-- One externally invokable breaker operation, with its wall-clock time
where the source reads `time.time()`. -/
inductive CBOp
  | fail (t : Int)
  | succ
  | check (t : Int)

/-- Dispatch one operation on a breaker (the state change it leaves behind). -/
def CircuitBreaker.applyOp (cb : CircuitBreaker) : CBOp → CircuitBreaker
  | .fail t => cb.record_failure t
  | .succ => cb.record_success
  | .check t => (cb.is_open t).2

/-- Run a sequence of breaker operations from a starting state. -/
def CircuitBreaker.runOps (cb : CircuitBreaker) (ops : List CBOp) : CircuitBreaker :=
  ops.foldl CircuitBreaker.applyOp cb

/-- Python `str.lower` restricted to ASCII characters. -/
def pyLower (s : String) : String := ⟨s.data.map Char.toLower⟩

/-- Calls recorded against the circuit breaker by the remote handler, in
program order. -/
inductive BreakerEvent
  | recFailure
  | recSuccess
deriving DecidableEq

/-- Shape of a CapSolver HTTP response: status code and the JSON fields
read by the handler. -/
structure CapResponse where
  statusCode : Nat
  errorId : Nat
  errorCode : String
  status : String
  solutionText : String

/-- Outcome of the remote call: a response, or a raised exception
(timeouts included, since `requests.post(..., timeout=30)` raises). -/
inductive RemoteOutcome
  | exn
  | resp (d : CapResponse)

namespace CapSolverHandler

/-- Embedding of `CapSolverHandler.solve_image_to_text` (src/captcha.py
lines 207-277): disabled short-circuit, circuit-breaker gate, then the
HTTP-error / API-error / ready / non-ready branches.  Returns the
`(code, status)` pair, the list of breaker calls made, and the resulting
breaker state. -/
def solve_image_to_text (enabled : Bool) (cb : CircuitBreaker) (now : Int)
    (out : RemoteOutcome) :
    (Option String × String) × List BreakerEvent × CircuitBreaker :=
  if !enabled then ((none, "DISABLED"), [], cb)
  else
    let chk := cb.is_open now
    if chk.1 then ((none, "CIRCUIT_OPEN"), [], chk.2)
    else
      match out with
      | .exn => ((none, "EXCEPTION"), [.recFailure], chk.2.record_failure now)
      | .resp d =>
        if d.statusCode ≠ 200 then
          ((none, "HTTP_" ++ toString d.statusCode), [.recFailure],
            chk.2.record_failure now)
        else if d.errorId ≠ 0 then
          ((none, "API_" ++ d.errorCode), [.recFailure], chk.2.record_failure now)
        else if d.status = "ready" then
          ((some d.solutionText, "SUCCESS"), [.recSuccess], chk.2.record_success)
        else
          ((none, "STATUS_" ++ d.status), [.recFailure], chk.2.record_failure now)

end CapSolverHandler

/-- Completion order of the two futures in the parallel race. -/
inductive RaceOrder
  | capFirst
  | localFirst

namespace EnhancedCaptchaSolver

/-- Embedding of `EnhancedCaptchaSolver.detect_black_captcha`
(src/captcha.py lines 590-605): a raw byte length below 2000 flags the
poisoned placeholder image. -/
def detect_black_captcha (imageLen : Nat) : Bool := imageLen < 2000

/-- Embedding of `EnhancedCaptchaSolver._clean_ocr_result` (src/captcha.py
lines 844-863): strip, drop spaces, keep only alphanumeric characters. -/
def clean_ocr_result (text : String) : String :=
  if text = "" then ""
  else ⟨((stripList text.data).filter (fun c => c != ' ')).filter Char.isAlphanum⟩

/-- Embedding of `EnhancedCaptchaSolver._solve_local_ocr` (src/captcha.py
lines 824-842).  `raw` is the `ocr.classification` output, `none` standing
for a raised exception; the result is lower-cased, cleaned and validated,
and the same `(result, status)` pair is returned whether or not it
validated. -/
def solve_local_ocr (raw : Option String) : String × String :=
  match raw with
  | none => ("", "ERROR")
  | some r =>
    let r1 := pyLower (pyStrip (removeSpaces r))
    let r2 := clean_ocr_result r1
    (r2, (validate_captcha_result r2).2)

/-- The solver-status set accepted inside `solve`'s parallel race loop. -/
def raceAccept (rs : String) : Bool :=
  rs == "SUCCESS" || rs == "VALID" || rs == "AGING_7" || rs == "AGING_8"

/-- One iteration of `solve`'s race loop over a completed future's
`(result_code, result_status)`: on a truthy code with accepted status the
code is cleaned and re-validated, and the winning pair returned. -/
def raceCheck (rc rs : String) : Option (String × String) :=
  if rc != "" && raceAccept rs then
    if (validate_captcha_result (clean_ocr_result rc)).1 then
      some (clean_ocr_result rc, rs)
    else none
  else none

/-- The race over the two completed futures in completion order: the first
future passing `raceCheck` wins, otherwise the race ends with ALL_FAILED
(src/captcha.py lines 741-787). -/
def raceTwo (p q : String × String) : String × String :=
  match raceCheck p.1 p.2 with
  | some out => out
  | none =>
    match raceCheck q.1 q.2 with
    | some out => out
    | none => ("", "ALL_FAILED")

/-- The sequential-mode CapSolver step (src/captcha.py lines 794-810): on a
truthy code with status SUCCESS, clean and validate it; acceptance returns
the pair tagged CAPSOLVER, anything else falls through to the local OCR. -/
def capAccept : Option String × String → Option (String × String)
  | (some c, st) =>
    if c != "" && st == "SUCCESS" then
      if (validate_captcha_result (clean_ocr_result c)).1 then
        some (clean_ocr_result c, "CAPSOLVER")
      else none
    else none
  | (none, _) => none

/-- Embedding of `EnhancedCaptchaSolver.solve` (src/captcha.py lines
705-822): manual-mode and missing-engine guards, black-image short-circuit,
then either the parallel race (both futures checked in completion order) or
the sequential CapSolver-then-local fallback.  `cap` is the CapSolver
`(code, status)` result (a missing code standing for Python `None`, which
is equally falsy), `localRaw` the local OCR classification
(`none` = exception), `order` the race completion order. -/
def solve (manualOnly hasOcr parallelEnabled capEnabled : Bool) (imageLen : Nat)
    (cap : Option String × String) (localRaw : Option String)
    (order : RaceOrder) : String × String :=
  if manualOnly then ("", "MANUAL_REQUIRED")
  else if !hasOcr then ("", "NO_OCR")
  else if detect_black_captcha imageLen then ("", "BLACK_IMAGE")
  else if parallelEnabled && capEnabled && hasOcr then
    match order with
    | .capFirst => raceTwo (cap.1.getD "", cap.2) (solve_local_ocr localRaw)
    | .localFirst => raceTwo (solve_local_ocr localRaw) (cap.1.getD "", cap.2)
  else
    match (if capEnabled then capAccept cap else none) with
    | some out => out
    | none =>
      if (solve_local_ocr localRaw).2 == "VALID" ||
         (solve_local_ocr localRaw).2 == "AGING_7" ||
         (solve_local_ocr localRaw).2 == "AGING_8" then solve_local_ocr localRaw
      else ("", "ALL_FAILED")

end EnhancedCaptchaSolver

/-- Result of `solve_form_captcha_with_retry`, extended with counters for
the solve attempts performed and the reload calls made. -/
structure RetryOutcome where
  success : Bool
  code : Option String
  status : String
  solveCalls : Nat
  reloadCalls : Nat
deriving DecidableEq

/-- Python truthiness of the returned code in `if success and code`. -/
def codeTruthy : Option String → Bool
  | none => false
  | some s => s != ""

namespace EnhancedCaptchaSolver

/-- Loop of `solve_form_captcha_with_retry` (src/captcha.py lines
1230-1268).  `remaining` is the number of iterations left
(`max_attempts - attempt`); `solveStep i` is the per-attempt
`(success, code, status)` result of `solve_from_page`; `reload r` is the
result of the r-th `reload_captcha` call. -/
def retryLoop (solveStep : Nat → Bool × Option String × String)
    (reload : Nat → Bool) (sessionAge maxAttempts : Nat) :
    Nat → Nat → Nat → Nat → RetryOutcome
  | 0, _, s, r => ⟨false, none, "MAX_ATTEMPTS_REACHED", s, r⟩
  | remaining + 1, attempt, s, r =>
    let res := solveStep attempt
    if res.1 && codeTruthy res.2.1 then ⟨true, res.2.1, res.2.2, s + 1, r⟩
    else if attempt + 1 < maxAttempts then
      if sessionAge > 1800 then ⟨false, none, "SESSION_TOO_OLD", s + 1, r⟩
      else if !(reload r) then ⟨false, none, "RELOAD_FAILED", s + 1, r⟩
      else retryLoop solveStep reload sessionAge maxAttempts remaining
        (attempt + 1) (s + 1) (r + 1)
    else ⟨false, none, "MAX_ATTEMPTS_REACHED", s + 1, r⟩

/-- Embedding of `EnhancedCaptchaSolver.solve_form_captcha_with_retry`
(src/captcha.py lines 1201-1268): manual mode raises the attempt bound to
1000, then the bounded retry/reload loop runs. -/
def solve_form_captcha_with_retry (manualOnly : Bool)
    (solveStep : Nat → Bool × Option String × String) (reload : Nat → Bool)
    (maxAttempts sessionAge : Nat) : RetryOutcome :=
  let ma := if manualOnly then 1000 else maxAttempts
  retryLoop solveStep reload sessionAge ma ma 0 0 0

end EnhancedCaptchaSolver

/-- The four session health levels (`SessionHealth` in `session_state.py`,
referenced from src/elite_sniper_v2.py). -/
inductive SessionHealth
  | CLEAN
  | WARNING
  | DEGRADED
  | POISONED
deriving DecidableEq

/-- The `SessionState` fields read and written by `elite_sniper_v2.py`
(the class itself lives in `session_state.py`, which is not among the
sources); timestamps are integers. -/
structure SessionState where
  health : SessionHealth
  createdAt : Int
  lastTouchedAt : Int
  failures : Nat
  consecutiveErrors : Nat
  captchaSolved : Bool
  maxAge : Int
  maxIdle : Int
  maxFailures : Nat
deriving DecidableEq

namespace SessionState

/-- Modelled from the spec: `SessionState.is_expired` lives in the missing
`session_state.py`; the spec defines expiry as `now - createdAt > maxAge`
or `now - lastTouchedAt > maxIdle`. -/
def is_expired (s : SessionState) (now : Int) : Bool :=
  now - s.createdAt > s.maxAge || now - s.lastTouchedAt > s.maxIdle

/-- Modelled from the spec: `SessionState.should_terminate` lives in the
missing `session_state.py`; the spec's failure-threshold rule is
`failureCount >= maxFailures`. -/
def should_terminate (s : SessionState) : Bool :=
  s.maxFailures ≤ s.failures

/-- Modelled from the spec: `SessionState.touch` lives in the missing
`session_state.py`; the spec says `touch()` advances `lastTouchedAt`. -/
def touch (s : SessionState) (now : Int) : SessionState :=
  { s with lastTouchedAt := now }

end SessionState

/-- Incident types written by `validate_session_health`. -/
inductive IncidentType
  | SESSION_EXPIRED
  | SESSION_POISONED
  | DOUBLE_CAPTCHA
  | FORM_REJECTED
deriving DecidableEq

namespace EliteSniperV2

/-- Embedding of `EliteSniperV2.validate_session_health`
(src/elite_sniper_v2.py lines 477-566): expiry, failure threshold, double
captcha, silent rejection and bounce rules in order.  `hasCaptcha` is the
`safe_captcha_check` result consulted under rule 3; `lastnameCount` and
`monthFormCount` are the page locator counts of rules 4 and 5.  Returns the
verdict, the (possibly mutated) session, and the incidents written. -/
def validate_session_health (s : SessionState) (now : Int) (location : String)
    (hasCaptcha : Bool) (lastnameCount monthFormCount : Nat) :
    Bool × SessionState × List IncidentType :=
  if s.is_expired now then (false, s, [.SESSION_EXPIRED])
  else if s.should_terminate then (false, s, [.SESSION_POISONED])
  else if s.captchaSolved && hasCaptcha then
    (false, { s with health := .POISONED }, [.DOUBLE_CAPTCHA])
  else if location == "POST_SUBMIT" && decide (0 < lastnameCount) then
    (false, s, [.FORM_REJECTED])
  else if location == "FORM" && decide (0 < monthFormCount) then
    (false, s, [])
  else (true, s.touch now, [])

/-- Embedding of `EliteSniperV2.soft_recovery` (src/elite_sniper_v2.py
lines 568-587): reset `consecutive_errors`, forgive one failure
(`max(0, failures - 1)`, which is truncated subtraction on `Nat`), step
DEGRADED back to WARNING or WARNING back to CLEAN, then touch. -/
def soft_recovery (s : SessionState) (now : Int) : SessionState :=
  let s1 := { s with consecutiveErrors := 0, failures := s.failures - 1 }
  let s2 :=
    if s1.health = .DEGRADED then { s1 with health := .WARNING }
    else if s1.health = .WARNING then { s1 with health := .CLEAN }
    else s1
  s2.touch now

end EliteSniperV2

theorem dropWhile_eq_self_of {p : Char → Bool} {l : List Char}
    (h : ∀ c ∈ l, p c = false) : l.dropWhile p = l := by
  cases l with
  | nil => rfl
  | cons a as => simp [List.dropWhile_cons, h a (by simp)]

theorem stripList_eq_self {l : List Char} (h : ∀ c ∈ l, isPyWhitespace c = false) :
    stripList l = l := by
  unfold stripList
  rw [dropWhile_eq_self_of h,
      dropWhile_eq_self_of (fun c hc => h c (List.mem_reverse.mp hc)),
      List.reverse_reverse]

theorem stripList_eq_nil {l : List Char} (h : ∀ c ∈ l, isPyWhitespace c = true) :
    stripList l = [] := by
  unfold stripList
  rw [List.dropWhile_eq_nil_iff.mpr h]
  rfl

theorem allSame_all_eq {l : List Char} (h : allSame l = true) :
    ∀ a ∈ l, ∀ b ∈ l, a = b := by
  cases l with
  | nil => intro a ha; exact absurd ha (List.not_mem_nil a)
  | cons c cs =>
    have hall := List.all_eq_true.mp h
    have key : ∀ a ∈ c :: cs, a = c := by
      intro a ha
      rcases List.mem_cons.mp ha with rfl | hmem
      · rfl
      · exact eq_of_beq (hall a hmem)
    intro a ha b hb
    rw [key a ha, key b hb]

theorem allSame_eq_false {l : List Char} (h : ∃ a ∈ l, ∃ b ∈ l, a ≠ b) :
    allSame l = false := by
  rcases h with ⟨a, ha, b, hb, hne⟩
  cases hall : allSame l with
  | false => rfl
  | true => exact absurd (allSame_all_eq hall a ha b hb) hne

theorem alnum_not_ws {c : Char} (h : c.isAlphanum = true) :
    isPyWhitespace c = false := by
  cases hws : isPyWhitespace c with
  | false => rfl
  | true =>
    exfalso
    simp only [isPyWhitespace, Bool.or_eq_true, beq_iff_eq] at hws
    rcases hws with ((((rfl | rfl) | rfl) | rfl) | rfl) | rfl <;>
      exact absurd h (by decide)

end AntSniper

open AntSniper AntSniper.EnhancedCaptchaSolver

/-- C2 (amended): for every length-6 string of alphanumeric characters that
contains at least two distinct characters, `validate_captcha_result` accepts
it with status `VALID`.  (The all-identical case is rejected as
`BLACK_DETECTED` by the garbage-pattern rule, which runs first.) -/
theorem C2_length6_alnum_distinct_valid (s : String) (h6 : s.length = 6)
    (hall : ∀ c ∈ s.data, c.isAlphanum = true)
    (hdist : ∃ a ∈ s.data, ∃ b ∈ s.data, a ≠ b) :
    validate_captcha_result s = (true, "VALID") := by
  have hne : s ≠ "" := by
    intro h; rw [h] at h6; exact absurd h6 (by decide)
  have hstrip : pyStrip s = s := by
    show String.mk (stripList s.data) = s
    rw [stripList_eq_self (fun c hc => alnum_not_ws (hall c hc))]
  have hrs : removeSpaces s = s := by
    show String.mk (s.data.filter _) = s
    have : s.data.filter (fun c => c != ' ') = s.data := by
      refine List.filter_eq_self.mpr ?_
      intro a ha
      have haa := hall a ha
      simp only [bne_iff_ne, ne_eq]
      intro h
      rw [h] at haa
      exact absurd haa (by decide)
    rw [this]
  have hc : removeSpaces (pyStrip s) = s := by rw [hstrip, hrs]
  have hSame : allSame s.data = false := allSame_eq_false hdist
  have hlen : ∀ t : String, t.length ≠ 6 → (s == t) = false := by
    intro t ht
    refine beq_eq_false_iff_ne.mpr ?_
    intro h; rw [h] at h6; exact absurd h6 ht
  have hb1 := hlen "4333" (by decide)
  have hb2 := hlen "333" (by decide)
  have hb3 := hlen "444" (by decide)
  have hb4 := hlen "1111" (by decide)
  have hb5 := hlen "0000" (by decide)
  have hb6 := hlen "4444" (by decide)
  have hb7 := hlen "3333" (by decide)
  unfold validate_captcha_result
  rw [if_neg hne]
  simp only [hc, hb1, hb2, hb3, hb4, hb5, hb6, hb7, hSame, h6, Bool.or_false,
    Bool.or_self, Bool.false_or]
  norm_num

/-- C2 witness: the theorem applied at the concrete input "abc123". -/
theorem C2_length6_alnum_distinct_valid_witness :
    validate_captcha_result "abc123" = (true, "VALID") :=
  C2_length6_alnum_distinct_valid "abc123" (by decide) (by decide)
    ⟨'a', by decide, 'b', by decide, by decide⟩

/-- C2 counterexample: "aaaaaa" has length 6 and is all-alphanumeric, yet
`validate_captcha_result` rejects it with `BLACK_DETECTED` (all characters
identical), refuting the claim that every such string yields
`(true, VALID)`. -/
theorem C2_counterexample :
    ("aaaaaa".length = 6 ∧ (∀ c ∈ "aaaaaa".data, c.isAlphanum = true)) ∧
    validate_captcha_result "aaaaaa" = (false, "BLACK_DETECTED") ∧
    validate_captcha_result "aaaaaa" ≠ (true, "VALID") := by
  decide

/-- C5 (amended): only the literally empty input string is rejected with
status `EMPTY`; a non-empty string consisting solely of whitespace is
stripped to the empty string only after the emptiness check and so is
rejected with `TOO_SHORT` instead. -/
theorem C5_empty_vs_whitespace (s : String) :
    (s = "" → validate_captcha_result s = (false, "EMPTY")) ∧
    (s ≠ "" → (∀ c ∈ s.data, isPyWhitespace c = true) →
      validate_captcha_result s = (false, "TOO_SHORT")) := by
  constructor
  · intro h; subst h; decide
  · intro hne hws
    have hc : removeSpaces (pyStrip s) = "" := by
      show String.mk ((stripList s.data).filter _) = ""
      rw [stripList_eq_nil hws]
      rfl
    unfold validate_captcha_result
    rw [if_neg hne]
    simp only [hc]
    decide

/-- C5 witness: the theorem applied at the concrete inputs "" and " ". -/
theorem C5_empty_vs_whitespace_witness :
    validate_captcha_result "" = (false, "EMPTY") ∧
    validate_captcha_result " " = (false, "TOO_SHORT") :=
  ⟨(C5_empty_vs_whitespace "").1 rfl,
   (C5_empty_vs_whitespace " ").2 (by decide) (by decide)⟩

/-- C5 counterexample: the single-space string strips to empty, but
`validate_captcha_result` returns `TOO_SHORT`, not `EMPTY`, because the
emptiness check precedes the stripping. -/
theorem C5_counterexample :
    (" " ≠ "" ∧ (∀ c ∈ (" " : String).data, isPyWhitespace c = true)) ∧
    validate_captcha_result " " = (false, "TOO_SHORT") ∧
    validate_captcha_result " " ≠ (false, "EMPTY") := by
  decide

theorem record_failure_failures (cb : CircuitBreaker) (t : Int) :
    (cb.record_failure t).failures = cb.failures + 1 := by
  simp only [CircuitBreaker.record_failure]
  split <;> rfl

theorem record_failure_threshold (cb : CircuitBreaker) (t : Int) :
    (cb.record_failure t).threshold = cb.threshold := by
  simp only [CircuitBreaker.record_failure]
  split <;> rfl

theorem record_failure_last (cb : CircuitBreaker) (t : Int) :
    (cb.record_failure t).lastFailureTime = t := by
  simp only [CircuitBreaker.record_failure]
  split <;> rfl

theorem failTimes_failures (cb : CircuitBreaker) (t : Int) (n : Nat) :
    (cb.failTimes t n).failures = cb.failures + n := by
  induction n with
  | zero => rfl
  | succ m ih =>
    show ((cb.failTimes t m).record_failure t).failures = cb.failures + (m + 1)
    rw [record_failure_failures, ih]
    omega

theorem failTimes_threshold (cb : CircuitBreaker) (t : Int) (n : Nat) :
    (cb.failTimes t n).threshold = cb.threshold := by
  induction n with
  | zero => rfl
  | succ m ih =>
    show ((cb.failTimes t m).record_failure t).threshold = cb.threshold
    rw [record_failure_threshold, ih]

theorem record_failure_state_open (cb : CircuitBreaker) (t : Int)
    (h : cb.threshold ≤ cb.failures + 1) : (cb.record_failure t).state = .OPEN := by
  unfold CircuitBreaker.record_failure
  rw [if_pos h]

theorem failTimes_open (th : Nat) (tmo t : Int) (hth : 1 ≤ th) :
    ((CircuitBreaker.mkNew th tmo).failTimes t th).state = .OPEN := by
  obtain ⟨m, rfl⟩ : ∃ m, th = m + 1 := ⟨th - 1, by omega⟩
  show (((CircuitBreaker.mkNew (m + 1) tmo).failTimes t m).record_failure t).state = .OPEN
  apply record_failure_state_open
  rw [failTimes_failures, failTimes_threshold]
  show m + 1 ≤ 0 + m + 1
  omega

theorem failTimes_last (cb : CircuitBreaker) (t : Int) (n : Nat) (hn : 1 ≤ n) :
    (cb.failTimes t n).lastFailureTime = t := by
  obtain ⟨m, rfl⟩ : ∃ m, n = m + 1 := ⟨n - 1, by omega⟩
  show ((cb.failTimes t m).record_failure t).lastFailureTime = t
  rw [record_failure_last]

theorem failTimes_timeout (cb : CircuitBreaker) (t : Int) (n : Nat) :
    (cb.failTimes t n).timeout = cb.timeout := by
  induction n with
  | zero => rfl
  | succ m ih =>
    show ((cb.failTimes t m).record_failure t).timeout = cb.timeout
    rw [← ih]
    simp only [CircuitBreaker.record_failure]
    split <;> rfl

/-- C3 (amended): after `threshold` consecutive `record_failure` calls
(threshold ≥ 1) the breaker is OPEN and `is_open` returns true while the
cooldown has not elapsed since the last failure.  Once the cooldown has
elapsed, the next `is_open` call returns false and flips the breaker to
HALF-OPEN — but, contrary to the original claim, every further `is_open`
call on the HALF-OPEN breaker (cooldown still elapsed, no intervening
`record_success`/`record_failure`) returns false again: the implementation
does not limit the HALF-OPEN state to a single probe. -/
theorem C3_breaker_cooldown_probe (th : Nat) (tmo t t1 t2 t3 : Int) (hth : 1 ≤ th) :
    let cb : CircuitBreaker := (CircuitBreaker.mkNew th tmo).failTimes t th
    cb.state = .OPEN ∧
    (¬ t1 - t > tmo → (cb.is_open t1).1 = true) ∧
    (t2 - t > tmo →
      (cb.is_open t2).1 = false ∧ (cb.is_open t2).2.state = .HALFOPEN ∧
      (t3 - t > tmo → (((cb.is_open t2).2).is_open t3).1 = false)) := by
  intro cb
  have hst : cb.state = .OPEN := failTimes_open th tmo t hth
  have hlast : cb.lastFailureTime = t := failTimes_last _ t th hth
  have hto : cb.timeout = tmo := failTimes_timeout _ t th
  refine ⟨hst, ?_, ?_⟩
  · intro h1
    unfold CircuitBreaker.is_open
    rw [hst, hlast, hto]
    simp only [if_neg (by simp : ¬ (CBState.OPEN = CBState.CLOSED))]
    rw [if_neg h1]
  · intro h2
    have hmain : cb.is_open t2 = (false, { cb with state := .HALFOPEN }) := by
      simp [CircuitBreaker.is_open, hst, hlast, hto, h2]
    rw [hmain]
    refine ⟨rfl, rfl, ?_⟩
    intro h3
    simp [CircuitBreaker.is_open, hlast, hto, h3]

/-- C3 witness: the amended theorem applied at threshold 2, timeout 300,
failures recorded at time 0, and probes at times 100, 301 and 302. -/
theorem C3_breaker_cooldown_probe_witness :
    let cb := (CircuitBreaker.mkNew 2 300).failTimes 0 2
    cb.state = .OPEN ∧
    (¬ (100 : Int) - 0 > 300 → (cb.is_open 100).1 = true) ∧
    ((301 : Int) - 0 > 300 →
      (cb.is_open 301).1 = false ∧ (cb.is_open 301).2.state = .HALFOPEN ∧
      ((302 : Int) - 0 > 300 → (((cb.is_open 301).2).is_open 302).1 = false)) :=
  C3_breaker_cooldown_probe 2 300 0 100 301 302 (by decide)

/-- C3 counterexample: with threshold 2 and cooldown 300, after two
failures at time 0 the circuit blocks at time 100; at time 301 the probe
call returns false; at time 302 a second `is_open` call, with no
intervening success or failure, returns false AGAIN — refuting the claim
that false is returned exactly once per cooldown expiry. -/
theorem C3_counterexample :
    let cb2 := (CircuitBreaker.mkNew 2 300).failTimes 0 2
    (cb2.is_open 100).1 = true ∧
    (cb2.is_open 301).1 = false ∧
    (((cb2.is_open 301).2).is_open 302).1 = false := by
  decide

theorem applyOp_inv {cb : CircuitBreaker} (op : CBOp)
    (h : cb.state ≠ .CLOSED → 1 ≤ cb.failures) :
    (cb.applyOp op).state ≠ .CLOSED → 1 ≤ (cb.applyOp op).failures := by
  cases op with
  | fail t =>
    intro _
    show 1 ≤ (cb.record_failure t).failures
    rw [record_failure_failures]
    omega
  | succ =>
    show (cb.record_success).state ≠ _ → 1 ≤ (cb.record_success).failures
    unfold CircuitBreaker.record_success
    split
    · intro hc; exact absurd rfl hc
    · exact h
  | check t =>
    show ((cb.is_open t).2).state ≠ _ → 1 ≤ ((cb.is_open t).2).failures
    unfold CircuitBreaker.is_open
    split
    · exact h
    · split
      · split
        · intro _
          exact h (by simp_all)
        · exact h
      · exact h

theorem runOps_inv (cb : CircuitBreaker) (ops : List CBOp)
    (h : cb.state ≠ .CLOSED → 1 ≤ cb.failures) :
    (cb.runOps ops).state ≠ .CLOSED → 1 ≤ (cb.runOps ops).failures := by
  induction ops generalizing cb with
  | nil => exact h
  | cons op rest ih =>
    show ((cb.applyOp op).runOps rest).state ≠ _ → _
    exact ih (cb.applyOp op) (applyOp_inv op h)

/-- C10: every breaker state reachable from a freshly constructed breaker
(threshold ≥ 1) by any sequence of `record_failure`, `record_success` and
`is_open` calls satisfies the invariant that a non-CLOSED state implies at
least one recorded failure; consequently `record_success` applied in any
reachable state leaves the breaker with zero failures and state CLOSED. -/
theorem C10_reachable_invariant (th : Nat) (tmo : Int) (ops : List CBOp)
    (hth : 1 ≤ th) :
    let final := (CircuitBreaker.mkNew th tmo).runOps ops
    (final.state ≠ .CLOSED → 1 ≤ final.failures) ∧
    final.record_success.failures = 0 ∧ final.record_success.state = .CLOSED := by
  intro final
  have hinv : final.state ≠ .CLOSED → 1 ≤ final.failures :=
    runOps_inv _ ops (fun h => absurd rfl h)
  refine ⟨hinv, ?_⟩
  show (final.record_success).failures = 0 ∧ (final.record_success).state = _
  unfold CircuitBreaker.record_success
  split
  · exact ⟨rfl, rfl⟩
  · rename_i hnot
    have hf : final.failures = 0 := by omega
    have hcl : final.state = .CLOSED := by
      by_contra hc
      have := hinv hc
      omega
    exact ⟨hf, hcl⟩

/-- C10 witness: the invariant theorem applied to a concrete operation
sequence (two failures, a check after cooldown, a success, another check). -/
theorem C10_reachable_invariant_witness :
    let final := (CircuitBreaker.mkNew 2 300).runOps
      [.fail 0, .fail 1, .check 400, .succ, .fail 10, .check 20]
    (final.state ≠ .CLOSED → 1 ≤ final.failures) ∧
    final.record_success.failures = 0 ∧ final.record_success.state = .CLOSED :=
  C10_reachable_invariant 2 300 [.fail 0, .fail 1, .check 400, .succ, .fail 10, .check 20]
    (by decide)

theorem validate_true_ne_nil {c : String}
    (h : (validate_captcha_result c).1 = true) : c ≠ "" := by
  intro he
  subst he
  exact absurd h (by decide)

theorem raceAccept_cases {rs : String} (h : raceAccept rs = true) :
    rs = "SUCCESS" ∨ rs = "VALID" ∨ rs = "AGING_7" ∨ rs = "AGING_8" := by
  simp only [raceAccept, Bool.or_eq_true, beq_iff_eq] at h
  tauto

theorem raceCheck_some {rc rs fc st : String}
    (h : raceCheck rc rs = some (fc, st)) :
    fc ≠ "" ∧ (st = "SUCCESS" ∨ st = "VALID" ∨ st = "AGING_7" ∨ st = "AGING_8") := by
  unfold raceCheck at h
  split at h
  · split at h
    · rename_i hcond hval
      injection h with h1
      injection h1 with ha hb
      subst ha; subst hb
      have hcond2 : (rc != "") = true ∧ raceAccept rs = true := by
        simpa using hcond
      exact ⟨validate_true_ne_nil hval, raceAccept_cases hcond2.2⟩
    · cases h
  · cases h

theorem raceTwo_outcomes (p q : String × String) (code status : String)
    (h : raceTwo p q = (code, status)) :
    (code = "" ∧ status = "ALL_FAILED") ∨
    (code ≠ "" ∧ (status = "SUCCESS" ∨ status = "VALID" ∨
      status = "AGING_7" ∨ status = "AGING_8")) := by
  unfold raceTwo at h
  rcases h1 : raceCheck p.1 p.2 with _ | ⟨fc, st⟩
  · rw [h1] at h
    rcases h2 : raceCheck q.1 q.2 with _ | ⟨fc, st⟩
    · rw [h2] at h
      injection h with ha hb
      subst ha; subst hb
      exact Or.inl ⟨rfl, rfl⟩
    · rw [h2] at h
      injection h with ha hb
      subst ha; subst hb
      exact Or.inr (raceCheck_some h2)
  · rw [h1] at h
    injection h with ha hb
    subst ha; subst hb
    exact Or.inr (raceCheck_some h1)

theorem capAccept_some {cap : Option String × String} {fc st : String}
    (h : capAccept cap = some (fc, st)) : fc ≠ "" ∧ st = "CAPSOLVER" := by
  rcases cap with ⟨oc, cst⟩
  cases oc with
  | none => cases h
  | some c =>
    simp only [capAccept] at h
    split at h
    · split at h
      · rename_i hval
        injection h with h1
        injection h1 with ha hb
        subst ha; subst hb
        exact ⟨validate_true_ne_nil hval, rfl⟩
      · cases h
    · cases h

theorem solve_local_ocr_accept {raw : Option String}
    (h : (solve_local_ocr raw).2 = "VALID" ∨ (solve_local_ocr raw).2 = "AGING_7" ∨
         (solve_local_ocr raw).2 = "AGING_8") :
    (solve_local_ocr raw).1 ≠ "" := by
  cases raw with
  | none =>
    rcases h with h | h | h <;> exact absurd h (by decide)
  | some r =>
    simp only [solve_local_ocr] at h ⊢
    intro he
    rcases h with h | h | h <;> rw [he] at h <;> exact absurd h (by decide)

theorem solve_outcomes (mo ho pe ce : Bool) (il : Nat)
    (cap : Option String × String) (localRaw : Option String) (order : RaceOrder)
    (code status : String)
    (h : solve mo ho pe ce il cap localRaw order = (code, status)) :
    (code = "" ∧ (status = "MANUAL_REQUIRED" ∨ status = "NO_OCR" ∨
      status = "BLACK_IMAGE" ∨ status = "ALL_FAILED")) ∨
    (code ≠ "" ∧ (status = "VALID" ∨ status = "AGING_7" ∨ status = "AGING_8" ∨
      status = "SUCCESS" ∨ status = "CAPSOLVER")) := by
  unfold solve at h
  split at h
  · injection h with ha hb; subst ha; subst hb
    exact Or.inl ⟨rfl, Or.inl rfl⟩
  split at h
  · injection h with ha hb; subst ha; subst hb
    exact Or.inl ⟨rfl, Or.inr (Or.inl rfl)⟩
  split at h
  · injection h with ha hb; subst ha; subst hb
    exact Or.inl ⟨rfl, Or.inr (Or.inr (Or.inl rfl))⟩
  split at h
  · -- parallel race
    split at h
    · rcases raceTwo_outcomes _ _ _ _ h with ⟨rfl, rfl⟩ | ⟨hne, hst⟩
      · exact Or.inl ⟨rfl, Or.inr (Or.inr (Or.inr rfl))⟩
      · refine Or.inr ⟨hne, ?_⟩
        rcases hst with rfl | rfl | rfl | rfl <;> tauto
    · rcases raceTwo_outcomes _ _ _ _ h with ⟨rfl, rfl⟩ | ⟨hne, hst⟩
      · exact Or.inl ⟨rfl, Or.inr (Or.inr (Or.inr rfl))⟩
      · refine Or.inr ⟨hne, ?_⟩
        rcases hst with rfl | rfl | rfl | rfl <;> tauto
  · -- sequential
    rcases hca : (if ce = true then capAccept cap else none) with _ | ⟨fc, st⟩ <;>
      rw [hca] at h
    · split at h
      · rename_i out hout
        exact Option.noConfusion hout
      · split at h
        · rename_i hcond
          have hst : (solve_local_ocr localRaw).2 = "VALID" ∨
              (solve_local_ocr localRaw).2 = "AGING_7" ∨
              (solve_local_ocr localRaw).2 = "AGING_8" := by
            have := hcond
            simp only [Bool.or_eq_true, beq_iff_eq] at this
            tauto
          have hne := solve_local_ocr_accept hst
          rw [h] at hst hne
          dsimp only at hst hne
          exact Or.inr ⟨hne, by tauto⟩
        · injection h with ha hb
          subst ha; subst hb
          exact Or.inl ⟨rfl, Or.inr (Or.inr (Or.inr rfl))⟩
    · split at h
      · rename_i out hout
        injection hout with hout2
        have hsome : capAccept cap = some (fc, st) := by
          by_cases hce : ce = true
          · rwa [if_pos hce] at hca
          · rw [if_neg hce] at hca; exact Option.noConfusion hca
        obtain ⟨hne, rfl⟩ := capAccept_some hsome
        rw [← hout2] at h
        injection h with ha hb
        subst ha; subst hb
        exact Or.inr ⟨hne, by tauto⟩
      · rename_i hout
        exact Option.noConfusion hout

/-- C1 (amended): every pair returned by `solve` satisfies: the returned
code is non-empty iff the returned status lies in {VALID, AGING_7, AGING_8,
SUCCESS, CAPSOLVER}.  The original status set {VALID, AGING_7, AGING_8} is
too small: the sequential path tags an accepted CapSolver result
"CAPSOLVER", and the race path propagates the winning solver's own status,
which is "SUCCESS" when CapSolver wins. -/
theorem C1_code_nonempty_iff_status (mo ho pe ce : Bool) (il : Nat)
    (cap : Option String × String) (localRaw : Option String) (order : RaceOrder)
    (code status : String)
    (h : solve mo ho pe ce il cap localRaw order = (code, status)) :
    code ≠ "" ↔ (status = "VALID" ∨ status = "AGING_7" ∨ status = "AGING_8" ∨
      status = "SUCCESS" ∨ status = "CAPSOLVER") := by
  rcases solve_outcomes mo ho pe ce il cap localRaw order code status h with
    ⟨rfl, hst⟩ | ⟨hne, hst⟩
  · constructor
    · intro hc; exact absurd rfl hc
    · intro hs
      rcases hst with rfl | rfl | rfl | rfl <;>
        rcases hs with hx | hx | hx | hx | hx <;> exact absurd hx (by decide)
  · exact ⟨fun _ => hst, fun _ => hne⟩

/-- C1 witness: the theorem applied to a concrete sequential-mode call in
which CapSolver succeeds, which returns ("abc123", "CAPSOLVER"). -/
theorem C1_code_nonempty_iff_status_witness :
    ("abc123" : String) ≠ "" ↔
      (("CAPSOLVER" : String) = "VALID" ∨ ("CAPSOLVER" : String) = "AGING_7" ∨
       ("CAPSOLVER" : String) = "AGING_8" ∨ ("CAPSOLVER" : String) = "SUCCESS" ∨
       ("CAPSOLVER" : String) = "CAPSOLVER") :=
  C1_code_nonempty_iff_status false true false true 5000 (some "abc123", "SUCCESS")
    (some "zzzzz") .capFirst "abc123" "CAPSOLVER" (by decide)

/-- C1 counterexample: in sequential mode with an accepted CapSolver result,
`solve` returns the non-empty code "abc123" with status "CAPSOLVER", which
is not in {VALID, AGING_7, AGING_8} — refuting the claimed invariant. -/
theorem C1_counterexample :
    solve false true false true 5000 (some "abc123", "SUCCESS") (some "zzzzz")
      .capFirst = ("abc123", "CAPSOLVER") ∧
    ("abc123" : String) ≠ "" ∧
    ¬ (("CAPSOLVER" : String) = "VALID" ∨ ("CAPSOLVER" : String) = "AGING_7" ∨
       ("CAPSOLVER" : String) = "AGING_8") := by
  decide

/-- C6 (amended): with manual mode off and the OCR engine initialised, every
image of raw byte length below 2000 makes `solve` short-circuit to the pair
("", "BLACK_IMAGE") — the status string is "BLACK_IMAGE", not the
validator's "BLACK_DETECTED" — independently of both solvers' results and
of the race order, i.e. without consulting either strategy. -/
theorem C6_black_image_short_circuit (pe ce : Bool) (il : Nat)
    (cap : Option String × String) (localRaw : Option String) (order : RaceOrder)
    (hil : il < 2000) :
    solve false true pe ce il cap localRaw order = ("", "BLACK_IMAGE") := by
  simp [solve, detect_black_captcha, hil]

/-- C6 witness: the theorem applied to a 100-byte image. -/
theorem C6_black_image_short_circuit_witness :
    solve false true true true 100 (some "abc123", "SUCCESS") (some "qwe789")
      .capFirst = ("", "BLACK_IMAGE") :=
  C6_black_image_short_circuit true true 100 (some "abc123", "SUCCESS")
    (some "qwe789") .capFirst (by decide)

/-- C6 counterexample: for a 100-byte image the short-circuit status is
"BLACK_IMAGE", not "BLACK_DETECTED" as the claim states. -/
theorem C6_counterexample :
    solve false true false false 100 (some "abc123", "SUCCESS") (some "qwe789")
      .localFirst = ("", "BLACK_IMAGE") ∧
    solve false true false false 100 (some "abc123", "SUCCESS") (some "qwe789")
      .localFirst ≠ ("", "BLACK_DETECTED") := by
  decide

/-- C7 (amended): in `CapSolverHandler.solve_image_to_text`, the disabled and circuit-open
short-circuits touch the breaker not at all; every failure path (HTTP error
status, API error payload, non-ready status, exception/timeout) calls
`record_failure` exactly once and returns no code; and `record_success` is
called exactly once whenever the HTTP response is 200 with errorId 0 and
status "ready" — regardless of whether the validator later accepts the
returned text (validation happens afterwards in `solve` and does not touch
the breaker). -/
theorem C7_breaker_call_discipline (enabled : Bool) (cb : CircuitBreaker)
    (now : Int) (out : RemoteOutcome) :
    ((CapSolverHandler.solve_image_to_text enabled cb now out).2.1 = [] ∧
      ((CapSolverHandler.solve_image_to_text enabled cb now out).1.2 = "DISABLED" ∨
       (CapSolverHandler.solve_image_to_text enabled cb now out).1.2 = "CIRCUIT_OPEN")) ∨
    ((CapSolverHandler.solve_image_to_text enabled cb now out).2.1 = [.recFailure] ∧
      (CapSolverHandler.solve_image_to_text enabled cb now out).1.1 = none) ∨
    ((CapSolverHandler.solve_image_to_text enabled cb now out).2.1 = [.recSuccess] ∧
      (CapSolverHandler.solve_image_to_text enabled cb now out).1.2 = "SUCCESS") := by
  by_cases he : enabled = true
  · by_cases ho : (cb.is_open now).1 = true
    · simp [CapSolverHandler.solve_image_to_text, he, ho]
    · cases out with
      | exn => simp [CapSolverHandler.solve_image_to_text, he, ho]
      | resp d =>
        by_cases h200 : d.statusCode = 200
        · by_cases herr : d.errorId = 0
          · by_cases hready : d.status = "ready"
            · simp [CapSolverHandler.solve_image_to_text, he, ho, h200, herr, hready]
            · simp [CapSolverHandler.solve_image_to_text, he, ho, h200, herr, hready]
          · simp [CapSolverHandler.solve_image_to_text, he, ho, h200, herr]
        · simp [CapSolverHandler.solve_image_to_text, he, ho, h200]
  · simp [CapSolverHandler.solve_image_to_text, he]

/-- C7 counterexample: a ready response whose text "zz" the validator
rejects still records a success on the breaker — refuting the claim that
`record_success` is called only for validator-accepted results. -/
theorem C7_counterexample :
    (CapSolverHandler.solve_image_to_text true (CircuitBreaker.mkNew 2 300) 0
      (.resp ⟨200, 0, "", "ready", "zz"⟩)).2.1 = [.recSuccess] ∧
    (CapSolverHandler.solve_image_to_text true (CircuitBreaker.mkNew 2 300) 0
      (.resp ⟨200, 0, "", "ready", "zz"⟩)).1.1 = some "zz" ∧
    (validate_captcha_result (clean_ocr_result "zz")).1 = false := by
  decide

theorem retryLoop_step (solveStep : Nat → Bool × Option String × String)
    (reload : Nat → Bool) (sa ma remaining attempt s r : Nat)
    (hfail : ((solveStep attempt).1 && codeTruthy (solveStep attempt).2.1) = false)
    (hlt : attempt + 1 < ma) (hage : ¬ sa > 1800) (hrel : reload r = true) :
    retryLoop solveStep reload sa ma (remaining + 1) attempt s r =
      retryLoop solveStep reload sa ma remaining (attempt + 1) (s + 1) (r + 1) := by
  simp [retryLoop, hfail, hlt, hage, hrel]

theorem retryLoop_last (solveStep : Nat → Bool × Option String × String)
    (reload : Nat → Bool) (sa ma remaining attempt s r : Nat)
    (hfail : ((solveStep attempt).1 && codeTruthy (solveStep attempt).2.1) = false)
    (hge : ¬ attempt + 1 < ma) :
    retryLoop solveStep reload sa ma (remaining + 1) attempt s r =
      ⟨false, none, "MAX_ATTEMPTS_REACHED", s + 1, r⟩ := by
  simp [retryLoop, hfail, hge]

/-- C9: when manual mode is off, every solve attempt is rejected
(`success and code` falsy), the session age is 0, and every reload
succeeds, `solve_form_captcha_with_retry` with `max_attempts = 5` performs
exactly 5 solve attempts, calls the reload exactly 4 times (never after
the last attempt), and returns failure with MAX_ATTEMPTS_REACHED. -/
theorem C9_retry_exhausts (solveStep : Nat → Bool × Option String × String)
    (reload : Nat → Bool)
    (hrej : ∀ i, ((solveStep i).1 && codeTruthy (solveStep i).2.1) = false)
    (hrel : ∀ r, reload r = true) :
    solve_form_captcha_with_retry false solveStep reload 5 0 =
      ⟨false, none, "MAX_ATTEMPTS_REACHED", 5, 4⟩ := by
  show retryLoop solveStep reload 0 5 (4 + 1) 0 0 0 = _
  rw [retryLoop_step solveStep reload 0 5 4 0 0 0 (hrej 0) (by norm_num)
    (by norm_num) (hrel 0)]
  show retryLoop solveStep reload 0 5 (3 + 1) 1 1 1 = _
  rw [retryLoop_step solveStep reload 0 5 3 1 1 1 (hrej 1) (by norm_num)
    (by norm_num) (hrel 1)]
  show retryLoop solveStep reload 0 5 (2 + 1) 2 2 2 = _
  rw [retryLoop_step solveStep reload 0 5 2 2 2 2 (hrej 2) (by norm_num)
    (by norm_num) (hrel 2)]
  show retryLoop solveStep reload 0 5 (1 + 1) 3 3 3 = _
  rw [retryLoop_step solveStep reload 0 5 1 3 3 3 (hrej 3) (by norm_num)
    (by norm_num) (hrel 3)]
  show retryLoop solveStep reload 0 5 (0 + 1) 4 4 4 = _
  rw [retryLoop_last solveStep reload 0 5 0 4 4 4 (hrej 4) (by norm_num)]

/-- C9 witness: the theorem applied to an always-rejecting solver and an
always-acknowledging reload. -/
theorem C9_retry_exhausts_witness :
    solve_form_captcha_with_retry false (fun _ => (false, none, "TOO_SHORT"))
      (fun _ => true) 5 0 = ⟨false, none, "MAX_ATTEMPTS_REACHED", 5, 4⟩ :=
  C9_retry_exhausts (fun _ => (false, none, "TOO_SHORT")) (fun _ => true)
    (fun _ => rfl) (fun _ => rfl)

/-- C4 (amended): when the session is expired at the time of the health
check (age above maxAge or idle above maxIdle), even with zero failures,
`validate_session_health` returns false and writes a SESSION_EXPIRED
incident, but leaves the session — in particular its health level —
unchanged: it does not force POISONED (only the double-captcha rule
mutates health; the expired session is discarded by the caller). -/
theorem C4_expiry_fails_health_unchanged (s : SessionState) (now : Int)
    (location : String) (hasCaptcha : Bool) (lastnameCount monthFormCount : Nat)
    (hexp : s.is_expired now = true) :
    EliteSniperV2.validate_session_health s now location hasCaptcha
      lastnameCount monthFormCount = (false, s, [.SESSION_EXPIRED]) := by
  simp [EliteSniperV2.validate_session_health, hexp]

/-- C4 witness: the theorem applied to a concrete session whose age 1000
exceeds its maxAge 300 with failures = 0. -/
theorem C4_expiry_fails_health_unchanged_witness :
    EliteSniperV2.validate_session_health
      ⟨.CLEAN, 0, 1000, 0, 0, false, 300, 3600, 5⟩ 1000 "X" false 0 0 =
      (false, ⟨.CLEAN, 0, 1000, 0, 0, false, 300, 3600, 5⟩, [.SESSION_EXPIRED]) :=
  C4_expiry_fails_health_unchanged ⟨.CLEAN, 0, 1000, 0, 0, false, 300, 3600, 5⟩
    1000 "X" false 0 0 (by decide)

/-- C4 counterexample: a CLEAN session with zero failures whose age exceeds
maxAge fails the health check, yet its health stays CLEAN — it is not
forced to POISONED as the claim states. -/
theorem C4_counterexample :
    (⟨.CLEAN, 0, 1000, 0, 0, false, 300, 3600, 5⟩ : SessionState).is_expired
      1000 = true ∧
    (⟨.CLEAN, 0, 1000, 0, 0, false, 300, 3600, 5⟩ : SessionState).failures = 0 ∧
    (EliteSniperV2.validate_session_health
      ⟨.CLEAN, 0, 1000, 0, 0, false, 300, 3600, 5⟩ 1000 "X" false 0 0).1 = false ∧
    (EliteSniperV2.validate_session_health
      ⟨.CLEAN, 0, 1000, 0, 0, false, 300, 3600, 5⟩ 1000 "X" false 0 0).2.1.health
      ≠ .POISONED := by
  decide

/-- C8 (amended): `soft_recovery` decreases the failure count by exactly
one with a floor of 0 (truncated subtraction) and resets consecutive
errors; the health level steps back one level only from DEGRADED (to
WARNING) and from WARNING (to CLEAN) — CLEAN stays CLEAN, and POISONED
stays POISONED: a poisoned session is never stepped back. -/
theorem C8_soft_recovery_spec (s : SessionState) (now : Int) :
    (EliteSniperV2.soft_recovery s now).failures = s.failures - 1 ∧
    (EliteSniperV2.soft_recovery s now).consecutiveErrors = 0 ∧
    (s.health = .DEGRADED → (EliteSniperV2.soft_recovery s now).health = .WARNING) ∧
    (s.health = .WARNING → (EliteSniperV2.soft_recovery s now).health = .CLEAN) ∧
    (s.health = .CLEAN → (EliteSniperV2.soft_recovery s now).health = .CLEAN) ∧
    (s.health = .POISONED → (EliteSniperV2.soft_recovery s now).health = .POISONED) := by
  rcases s with ⟨h, ca, lt, f, ce2, cs, ma, mi, mf⟩
  cases h <;> simp [EliteSniperV2.soft_recovery, SessionState.touch]

/-- C8 witness: the theorem applied to a concrete DEGRADED session with 3
failures. -/
theorem C8_soft_recovery_spec_witness :
    (EliteSniperV2.soft_recovery ⟨.DEGRADED, 0, 0, 3, 2, false, 300, 60, 5⟩ 7).failures
      = (⟨.DEGRADED, 0, 0, 3, 2, false, 300, 60, 5⟩ : SessionState).failures - 1 ∧
    (EliteSniperV2.soft_recovery ⟨.DEGRADED, 0, 0, 3, 2, false, 300, 60, 5⟩ 7).consecutiveErrors = 0 ∧
    ((⟨.DEGRADED, 0, 0, 3, 2, false, 300, 60, 5⟩ : SessionState).health = .DEGRADED →
      (EliteSniperV2.soft_recovery ⟨.DEGRADED, 0, 0, 3, 2, false, 300, 60, 5⟩ 7).health = .WARNING) ∧
    ((⟨.DEGRADED, 0, 0, 3, 2, false, 300, 60, 5⟩ : SessionState).health = .WARNING →
      (EliteSniperV2.soft_recovery ⟨.DEGRADED, 0, 0, 3, 2, false, 300, 60, 5⟩ 7).health = .CLEAN) ∧
    ((⟨.DEGRADED, 0, 0, 3, 2, false, 300, 60, 5⟩ : SessionState).health = .CLEAN →
      (EliteSniperV2.soft_recovery ⟨.DEGRADED, 0, 0, 3, 2, false, 300, 60, 5⟩ 7).health = .CLEAN) ∧
    ((⟨.DEGRADED, 0, 0, 3, 2, false, 300, 60, 5⟩ : SessionState).health = .POISONED →
      (EliteSniperV2.soft_recovery ⟨.DEGRADED, 0, 0, 3, 2, false, 300, 60, 5⟩ 7).health = .POISONED) :=
  C8_soft_recovery_spec ⟨.DEGRADED, 0, 0, 3, 2, false, 300, 60, 5⟩ 7

/-- C8 counterexample: soft recovery applied to a POISONED session leaves
it POISONED; it does not step it back to DEGRADED as the claimed
one-level step along the full chain would require. -/
theorem C8_counterexample :
    (EliteSniperV2.soft_recovery ⟨.POISONED, 0, 0, 3, 2, false, 300, 60, 5⟩ 7).health
      = .POISONED ∧
    (EliteSniperV2.soft_recovery ⟨.POISONED, 0, 0, 3, 2, false, 300, 60, 5⟩ 7).health
      ≠ .DEGRADED := by
  decide
